import Mathlib

/-!
Verification of the gesture recognition and interaction control pipeline of
`src/components/GestureController.tsx`.

The per-frame pipeline (function `predictWebcam` together with
`getFingerState`) is embedded shallowly:

* landmark coordinates and all derived scalars are rationals;
* the source compares Euclidean distances (`Math.hypot`) only against
  nonnegative right-hand sides, so every comparison is embedded in its exactly
  equivalent squared form (`hypot a b < c ↔ a² + b² < c²` for `0 ≤ c`); squared
  constants appear accordingly (1.4² = 49/25, 0.8² = 16/25, 0.9² = 81/100,
  0.3² = 9/100, 0.08² = 4/625);
* the mutable refs (`gestureStreakRef`, `palmHistoryRef`, `lastPalmPosRef`,
  `pinchCooldownRef`, `pinchActiveRef`, `lastPinchPosRef`, `rotationBoostRef`,
  `lastHandScaleRef`) become one explicit `State` record threaded through a
  `step` function, one application per processed video frame;
* the fire-and-forget callbacks (`onMove`, `onZoom`, `onPalmMove`, `onPinch`,
  `onGesture`) become an explicit list of emitted `Event`s, in source call
  order.
-/

namespace Gesture

/-- A 2-D point in normalized image coordinates. The `z` coordinate of a
landmark is never read by the gesture pipeline (all distances use
`Math.hypot` on `x` and `y` only), so it is omitted. -/
structure Pt where
  x : ℚ
  y : ℚ
deriving DecidableEq, Repr

/-- Squared Euclidean distance: the squared form of
`Math.hypot(p.x - q.x, p.y - q.y)`. -/
def dist2 (p q : Pt) : ℚ := (p.x - q.x) ^ 2 + (p.y - q.y) ^ 2

/-- A hand-landmark set: anatomical points indexed as in MediaPipe
(wrist 0; thumb MCP 2, IP 3, tip 4; index MCP 5, PIP 6, tip 8;
middle MCP 9, PIP 10, tip 12; ring MCP 13, PIP 14, tip 16;
pinky MCP 17, PIP 18, tip 20). -/
def Landmarks : Type := ℕ → Pt

/-- Per-finger extension flags, the result record of `getFingerState`. -/
structure FingerState where
  thumb : Bool
  index : Bool
  middle : Bool
  ring : Bool
  pinky : Bool
deriving DecidableEq, Repr

/-- The `isCurled` helper of `getFingerState` (lines 115-137): the primary
tip-to-wrist versus MCP-to-wrist ratio test with slack 1.4, or the secondary
severely-bent test (tip close to its MCP relative to the PIP-to-MCP distance,
factor 0.8); both in squared form. -/
def isCurled (lm : Landmarks) (tipIdx pipIdx mcpIdx : ℕ) : Bool :=
  if dist2 (lm tipIdx) (lm 0) < dist2 (lm mcpIdx) (lm 0) * (49 / 25) ∨
      dist2 (lm tipIdx) (lm mcpIdx) < dist2 (lm pipIdx) (lm mcpIdx) * (16 / 25) then
    true
  else false

/-- Squared palm width: squared distance between index MCP (5) and
pinky MCP (17). -/
def palmWidth2 (lm : Landmarks) : ℚ := dist2 (lm 5) (lm 17)

/-- The thumb test of `getFingerState` (lines 139-153): extended when the
thumb-tip-to-pinky-MCP distance exceeds 0.9 × palm width and the thumb tip is
not within 0.3 × palm width of its IP joint; in squared form. -/
def thumbExtended (lm : Landmarks) : Bool :=
  if palmWidth2 lm * (81 / 100) < dist2 (lm 4) (lm 17) ∧
      ¬ dist2 (lm 4) (lm 3) < palmWidth2 lm * (9 / 100) then
    true
  else false

/-- `getFingerState` (lines 108-164). -/
def getFingerState (lm : Landmarks) : FingerState :=
  { thumb := thumbExtended lm
    index := !isCurled lm 8 6 5
    middle := !isCurled lm 12 10 9
    ring := !isCurled lm 16 14 13
    pinky := !isCurled lm 20 18 17 }

/-- The closed enumeration of gesture labels (`GestureName`), with the
source's spelling. -/
inductive GestureName where
  | None
  | Open_Palm
  | Closed_Fist
  | Pointing_Up
  | Thumb_Up
  | Thumb_Down
  | Victory
  | ILoveYou
  | Pinch
deriving DecidableEq, Repr

/-- `extendedCount` (line 442): the number of extended non-thumb fingers. -/
def extendedCount (f : FingerState) : ℕ :=
  (if f.index then 1 else 0) + (if f.middle then 1 else 0) +
    (if f.ring then 1 else 0) + (if f.pinky then 1 else 0)

/-- The per-frame classifier, lines 439-473: a first-match decision over the
extracted features. `pd2` is the squared thumb-tip-to-index-tip distance
(the source's `isPinch` is `pinchDist < 0.08`, i.e. `pd2 < 4/625`);
`thumbDiffY` is `landmarks[4].y - landmarks[2].y`. -/
def classify (fingers : FingerState) (pd2 thumbDiffY : ℚ) : GestureName :=
  if pd2 < 4 / 625 ∧ fingers.middle then .Pinch
  else if extendedCount fingers = 4 ∧ fingers.thumb then .Open_Palm
  else if extendedCount fingers ≤ 1 ∧ ¬ fingers.thumb then .Closed_Fist
  else if extendedCount fingers = 0 ∧ fingers.thumb then
    if thumbDiffY < -(1 / 20) then .Thumb_Up
    else if thumbDiffY > 1 / 20 then .Thumb_Down
    else .Closed_Fist
  else if fingers.index ∧ fingers.middle ∧ ¬ fingers.ring ∧ ¬ fingers.pinky then .Victory
  else if fingers.index ∧ ¬ fingers.middle ∧ ¬ fingers.ring ∧ ¬ fingers.pinky then .Pointing_Up
  else if fingers.thumb ∧ fingers.index ∧ ¬ fingers.middle ∧ ¬ fingers.ring ∧ fingers.pinky then
    .ILoveYou
  else .None

/-- Full landmark-level classification of one frame: feature extraction
followed by `classify`. -/
def detectGesture (lm : Landmarks) : GestureName :=
  classify (getFingerState lm) (dist2 (lm 4) (lm 8)) ((lm 4).y - (lm 2).y)

/-- The stabilizer state (`gestureStreakRef`): last label (`null` for the
no-gesture reset) and streak count. -/
structure Streak where
  name : Option GestureName
  count : ℕ
deriving DecidableEq, Repr

/-- The streak update of lines 476-484: a non-`None` label increments on
repeat and resets to count 1 on change; label `None` resets to
`{ name: null, count: 0 }`. -/
def stabStep (s : Streak) (g : GestureName) : Streak :=
  if g ≠ GestureName.None then
    if s.name = some g then { name := s.name, count := s.count + 1 }
    else { name := some g, count := 1 }
  else { name := none, count := 0 }

/-- `thresholdMap[detectedGesture] || 3` (lines 486-495); `Pointing_Up` and
`None` are absent from the map, hence default 3. -/
def thresholdOf (g : GestureName) : ℕ :=
  match g with
  | .Pinch => 2
  | .Open_Palm => 2
  | .Closed_Fist => 2
  | .Thumb_Up => 5
  | .Thumb_Down => 5
  | .Victory => 4
  | .ILoveYou => 5
  | _ => 3

/-- Iterated streak update: feed `n` frames of the same label. -/
def feed (s : Streak) (g : GestureName) : ℕ → Streak
  | 0 => s
  | n + 1 => stabStep (feed s g n) g

/-- The per-frame quantities the frame handler reads from a detected hand:
finger flags, the thumb-direction scalar `landmarks[4].y - landmarks[2].y`,
the thumb and index tips (which determine pinch distance and pinch position),
the raw palm centroid of landmarks 0/5/17, and the wrist-to-middle-MCP hand
size scalar. -/
structure Obs where
  fingers : FingerState
  thumbDiffY : ℚ
  thumbTip : Pt
  indexTip : Pt
  rawPalm : Pt
  handSize : ℚ
deriving DecidableEq, Repr

/-- The label the frame handler computes for an observation. -/
def detectedOf (obs : Obs) : GestureName :=
  classify obs.fingers (dist2 obs.thumbTip obs.indexTip) obs.thumbDiffY

/-- Caller-supplied configuration, static for a session. -/
structure Config where
  photoLocked : Bool
  isPhotoSelected : Bool
  palmSpeed : ℚ
  zoomSpeed : ℚ
deriving DecidableEq, Repr

/-- The full mutable session state of the frame loop. -/
structure State where
  lastPalmPos : Option Pt
  palmHistory : List Pt
  streak : Streak
  pinchCooldown : ℚ
  pinchActive : Bool
  lastPinchPos : Option Pt
  rotationBoost : ℚ
  lastHandScale : Option ℚ
deriving DecidableEq, Repr

/-- Initial state of a session: all refs at their declaration values. -/
def initState : State :=
  { lastPalmPos := none
    palmHistory := []
    streak := { name := none, count := 0 }
    pinchCooldown := 0
    pinchActive := false
    lastPinchPos := none
    rotationBoost := 0
    lastHandScale := none }

/-- The externally observable callback invocations of one frame. -/
inductive Event where
  | gesture (g : GestureName)
  | pinch (p : Pt)
  | palmMove (dx dy : ℚ)
  | zoom (d : ℚ)
  | move (speed : ℚ)
deriving DecidableEq, Repr

/-- `true` exactly on `onGesture` invocations. -/
def Event.isGestureEv : Event → Bool
  | .gesture _ => true
  | _ => false

/-- `true` exactly on `onPinch` invocations. -/
def Event.isPinchEv : Event → Bool
  | .pinch _ => true
  | _ => false

/-- `true` exactly on `onPalmMove` invocations. -/
def Event.isPalmMoveEv : Event → Bool
  | .palmMove _ _ => true
  | _ => false

/-- `true` exactly on `onPalmMove` and `onZoom` invocations. -/
def Event.isPanZoomEv : Event → Bool
  | .palmMove _ _ => true
  | .zoom _ => true
  | _ => false

/-- `true` exactly on `onZoom` invocations. -/
def Event.isZoomEv : Event → Bool
  | .zoom _ => true
  | _ => false

/-- `true` exactly on `onMove` invocations with a nonzero speed. -/
def Event.isNonzeroMoveEv : Event → Bool
  | .move v => if v = 0 then false else true
  | _ => false

/-- History push of lines 421-424: append the raw centroid, keep the most
recent 4 samples (`shift()` drops the oldest). -/
def pushHist (h : List Pt) (p : Pt) : List Pt :=
  let h1 := h ++ [p]
  if 4 < h1.length then h1.tail else h1

/-- Coordinatewise average of the history (lines 427-428). -/
def avgOf (h : List Pt) : Pt :=
  ⟨(h.map Pt.x).sum / (h.length : ℚ), (h.map Pt.y).sum / (h.length : ℚ)⟩

/-- Frame-to-frame palm delta (lines 430-435): zero when no previous smoothed
position exists; `dx` on the horizontally mirrored coordinate. -/
def deltasOf (last : Option Pt) (avg : Pt) : ℚ × ℚ :=
  match last with
  | none => (0, 0)
  | some p => ((1 - avg.x) - (1 - p.x), avg.y - p.y)

/-- Pinch position-change test of lines 570-573: no last position, or either
coordinate moved by more than 0.1. -/
def posChanged (lastPos : Option Pt) (px py : ℚ) : Prop :=
  lastPos.elim True fun lp => |px - lp.x| > 1 / 10 ∨ |py - lp.y| > 1 / 10

instance (lastPos : Option Pt) (px py : ℚ) : Decidable (posChanged lastPos px py) :=
  match lastPos with
  | none => .isTrue trivial
  | some _ => inferInstanceAs (Decidable (_ ∨ _))

/-- Motion phase of one detected-hand frame (lines 415-436 and 506-560):
palm smoothing, the palm-control branch (zoom when stable, pan above the
motion threshold, both gated by `photoLocked`), and otherwise rotation
damping. `s1` already carries the updated streak; `g` is the detected label
and `stCount` the updated streak count. Returns the updated state and the
`onMove`/`onZoom`/`onPalmMove` invocations in source order. -/
def motionStep (cfg : Config) (s1 : State) (obs : Obs) (g : GestureName) (stCount : ℕ) :
    State × List Event :=
  let hist := pushHist s1.palmHistory obs.rawPalm
  let palm := avgOf hist
  let d := deltasOf s1.lastPalmPos palm
  let s2 := { s1 with palmHistory := hist, lastPalmPos := some palm }
  if g = GestureName.Open_Palm ∨ extendedCount obs.fingers = 4 then
    if cfg.photoLocked then
      ({ s2 with rotationBoost := 0, lastHandScale := none, lastPalmPos := none },
        [Event.move 0])
    else
      let scaleX :=
        if thresholdOf g ≤ stCount then
          match s1.lastHandScale with
          | none => (some obs.handSize, ([] : List Event))
          | some sc =>
            let cur := sc * (9 / 10) + obs.handSize * (1 / 10)
            (some cur,
              if |cur - sc| > 1 / 1000 then
                [Event.zoom ((cur - sc) * (if cfg.zoomSpeed = 0 then 100 else cfg.zoomSpeed))]
              else [])
        else (none, ([] : List Event))
      let palmEvs :=
        if |d.1| > 1 / 1000 ∨ |d.2| > 1 / 1000 then
          [Event.palmMove (d.1 * cfg.palmSpeed) (d.2 * cfg.palmSpeed)]
        else []
      ({ s2 with rotationBoost := 0, lastHandScale := scaleX.1 },
        [Event.move 0] ++ scaleX.2 ++ palmEvs)
  else
    if cfg.isPhotoSelected ∨ g = GestureName.Pinch then
      ({ s2 with lastHandScale := none, lastPalmPos := none, rotationBoost := 0 },
        [Event.move 0])
    else
      let rb0 := s1.rotationBoost * (9 / 10)
      let rb := if |rb0| < 1 / 100 then 0 else rb0
      ({ s2 with lastHandScale := none, lastPalmPos := none, rotationBoost := rb },
        [Event.move (rb * (2 / 25))])

/-- Stable-gesture dispatch of lines 562-594: the debounced discrete pinch
action (active flag, cooldown, position change), the generic gesture callback
for every other stable non-`None` label, and the pinch-state reset on an
unstable `None` frame. -/
def dispatchStep (s2 : State) (obs : Obs) (g : GestureName) (stCount : ℕ) :
    State × List Event :=
  if thresholdOf g ≤ stCount then
    if g = GestureName.Pinch then
      let pinchX := 1 - (obs.thumbTip.x + obs.indexTip.x) / 2
      let pinchY := (obs.thumbTip.y + obs.indexTip.y) / 2
      if ¬ s2.pinchActive ∧ s2.pinchCooldown ≤ 0 ∧ posChanged s2.lastPinchPos pinchX pinchY then
        ({ s2 with
            pinchActive := true
            pinchCooldown := 3 / 10
            lastPinchPos := some ⟨pinchX, pinchY⟩ },
          [Event.pinch ⟨pinchX, pinchY⟩])
      else (s2, [])
    else
      if g = GestureName.None then ({ s2 with pinchActive := false }, [])
      else ({ s2 with pinchActive := false }, [Event.gesture g])
  else if g = GestureName.None then
    ({ s2 with pinchActive := false, lastPinchPos := none }, [])
  else (s2, [])

/-- One frame with a detected hand (cooldown already applied): classify,
update the streak, run the motion phase, then the stable-gesture dispatch. -/
def handStep (cfg : Config) (s0 : State) (obs : Obs) : State × List Event :=
  let g := detectedOf obs
  let streakA := stabStep s0.streak g
  let m := motionStep cfg { s0 with streak := streakA } obs g streakA.count
  let dsp := dispatchStep m.1 obs g streakA.count
  (dsp.1, m.2 ++ dsp.2)

/-- One processed video frame: pinch-cooldown decay by the elapsed time
`delta` in seconds (line 391), then either the detected-hand pipeline or the
no-hand path of lines 596-603 (history cleared, streak reset, rotation boost
decayed by 0.9, residual `onMove`). -/
def step (cfg : Config) (s : State) (fr : Option Obs) (delta : ℚ) : State × List Event :=
  let s0 := if 0 < s.pinchCooldown then { s with pinchCooldown := s.pinchCooldown - delta } else s
  match fr with
  | some obs => handStep cfg s0 obs
  | none =>
    ({ s0 with
        palmHistory := []
        streak := { name := none, count := 0 }
        rotationBoost := s0.rotationBoost * (9 / 10) },
      [Event.move (s0.rotationBoost * (9 / 10) * (1 / 20))])

/-- Fold `step` over a list of frames (observation and elapsed seconds),
concatenating the emitted events. -/
def run (cfg : Config) (s : State) (frames : List (Option Obs × ℚ)) : State × List Event :=
  match frames with
  | [] => (s, [])
  | f :: rest =>
    let r1 := step cfg s f.1 f.2
    let r2 := run cfg r1.1 rest
    (r2.1, r1.2 ++ r2.2)

/-- Classifier transcribed clause-for-clause from the wording of claim C4
(spec section 4.2), reading clause (6) in its plain sense: `Pointing_Up` fires
when ONLY the index is extended, so the thumb is excluded as well (clause (4)
uses the same phrase for the thumb, where it excludes all four fingers). -/
def specClassify (fingers : FingerState) (pd2 thumbDiffY : ℚ) : GestureName :=
  if pd2 < 4 / 625 ∧ fingers.middle then .Pinch
  else if fingers.index ∧ fingers.middle ∧ fingers.ring ∧ fingers.pinky ∧ fingers.thumb then
    .Open_Palm
  else if extendedCount fingers ≤ 1 ∧ ¬ fingers.thumb then .Closed_Fist
  else if fingers.thumb ∧ ¬ fingers.index ∧ ¬ fingers.middle ∧ ¬ fingers.ring ∧ ¬ fingers.pinky then
    if thumbDiffY < -(1 / 20) then .Thumb_Up
    else if thumbDiffY > 1 / 20 then .Thumb_Down
    else .Closed_Fist
  else if fingers.index ∧ fingers.middle ∧ ¬ fingers.ring ∧ ¬ fingers.pinky then .Victory
  else if ¬ fingers.thumb ∧ fingers.index ∧ ¬ fingers.middle ∧ ¬ fingers.ring ∧ ¬ fingers.pinky then
    .Pointing_Up
  else if fingers.thumb ∧ fingers.index ∧ ¬ fingers.middle ∧ ¬ fingers.ring ∧ fingers.pinky then
    .ILoveYou
  else .None

/-- The claim C4 classifier amended minimally: clause (6) does not constrain
the thumb, exactly as the source's `Pointing_Up` test does not. -/
def specClassifyFixed (fingers : FingerState) (pd2 thumbDiffY : ℚ) : GestureName :=
  if pd2 < 4 / 625 ∧ fingers.middle then .Pinch
  else if fingers.index ∧ fingers.middle ∧ fingers.ring ∧ fingers.pinky ∧ fingers.thumb then
    .Open_Palm
  else if extendedCount fingers ≤ 1 ∧ ¬ fingers.thumb then .Closed_Fist
  else if fingers.thumb ∧ ¬ fingers.index ∧ ¬ fingers.middle ∧ ¬ fingers.ring ∧ ¬ fingers.pinky then
    if thumbDiffY < -(1 / 20) then .Thumb_Up
    else if thumbDiffY > 1 / 20 then .Thumb_Down
    else .Closed_Fist
  else if fingers.index ∧ fingers.middle ∧ ¬ fingers.ring ∧ ¬ fingers.pinky then .Victory
  else if fingers.index ∧ ¬ fingers.middle ∧ ¬ fingers.ring ∧ ¬ fingers.pinky then .Pointing_Up
  else if fingers.thumb ∧ fingers.index ∧ ¬ fingers.middle ∧ ¬ fingers.ring ∧ fingers.pinky then
    .ILoveYou
  else .None

/-!
Concrete inputs used by the counterexample and witness theorems below.
All are ordinary hand shapes: finger flags plus tip positions consistent with
the labels they are meant to produce.
-/

/-- Default configuration: no photo lock, no photo selected, pan sensitivity
25 (the source default), zoom speed 100 (the source default). -/
def cfgA : Config := { photoLocked := false, isPhotoSelected := false, palmSpeed := 25, zoomSpeed := 100 }

/-- A closed fist: no digit extended, thumb and index tips far apart. -/
def obsFist : Obs :=
  { fingers := ⟨false, false, false, false, false⟩
    thumbDiffY := 0
    thumbTip := ⟨3 / 10, 1 / 2⟩
    indexTip := ⟨3 / 5, 1 / 2⟩
    rawPalm := ⟨1 / 2, 1 / 2⟩
    handSize := 1 / 5 }

/-- An observation classified `None`: only middle and ring extended. -/
def obsNone : Obs :=
  { fingers := ⟨false, false, true, true, false⟩
    thumbDiffY := 0
    thumbTip := ⟨3 / 10, 1 / 2⟩
    indexTip := ⟨3 / 5, 1 / 2⟩
    rawPalm := ⟨1 / 2, 1 / 2⟩
    handSize := 1 / 5 }

/-- An open palm whose raw palm centroid is `(1/2 + k/100, 1/2)`. -/
def obsOpen (k : ℕ) : Obs :=
  { fingers := ⟨true, true, true, true, true⟩
    thumbDiffY := 0
    thumbTip := ⟨1 / 5, 1 / 2⟩
    indexTip := ⟨3 / 5, 2 / 5⟩
    rawPalm := ⟨1 / 2 + (k : ℚ) / 100, 1 / 2⟩
    handSize := 1 / 5 }

/-- Four non-thumb fingers extended with the thumb curled: classified `None`,
yet `extendedCount === 4` steers the frame into the palm-control branch. -/
def obsFourNoThumb : Obs :=
  { fingers := ⟨false, true, true, true, true⟩
    thumbDiffY := 0
    thumbTip := ⟨1 / 5, 1 / 2⟩
    indexTip := ⟨3 / 5, 2 / 5⟩
    rawPalm := ⟨3 / 5, 1 / 2⟩
    handSize := 1 / 5 }

/-- A pinch (tips 0.02 apart, middle extended) around x = 0.51: the emitted
pinch position is `(49/100, 1/2)` after mirroring. -/
def obsPinchP : Obs :=
  { fingers := ⟨false, false, true, false, false⟩
    thumbDiffY := 0
    thumbTip := ⟨1 / 2, 1 / 2⟩
    indexTip := ⟨13 / 25, 1 / 2⟩
    rawPalm := ⟨1 / 2, 1 / 2⟩
    handSize := 1 / 5 }

/-- A pinch around x = 0.81: the emitted pinch position is `(19/100, 1/2)`,
0.3 units away from `obsPinchP`'s. -/
def obsPinchQ : Obs :=
  { fingers := ⟨false, false, true, false, false⟩
    thumbDiffY := 0
    thumbTip := ⟨4 / 5, 1 / 2⟩
    indexTip := ⟨41 / 50, 1 / 2⟩
    rawPalm := ⟨1 / 2, 1 / 2⟩
    handSize := 1 / 5 }

/-- Claim C1 scenario: 5 frames of fist, 1 frame of `None`, 5 frames of fist,
0.1 s apart. -/
def framesC1 : List (Option Obs × ℚ) :=
  [(some obsFist, 1 / 10), (some obsFist, 1 / 10), (some obsFist, 1 / 10),
    (some obsFist, 1 / 10), (some obsFist, 1 / 10), (some obsNone, 1 / 10),
    (some obsFist, 1 / 10), (some obsFist, 1 / 10), (some obsFist, 1 / 10),
    (some obsFist, 1 / 10), (some obsFist, 1 / 10)]

/-- Claim C2 scenario: 10 frames of open palm with the palm centroid x
increasing by 0.01 per frame. -/
def framesC2 : List (Option Obs × ℚ) :=
  [(some (obsOpen 1), 1 / 10), (some (obsOpen 2), 1 / 10), (some (obsOpen 3), 1 / 10),
    (some (obsOpen 4), 1 / 10), (some (obsOpen 5), 1 / 10), (some (obsOpen 6), 1 / 10),
    (some (obsOpen 7), 1 / 10), (some (obsOpen 8), 1 / 10), (some (obsOpen 9), 1 / 10),
    (some (obsOpen 10), 1 / 10)]

/-- Counterexample frames for C2: one open-palm frame, then a `None`-classified
frame with four fingers extended and the palm centroid displaced by 0.1. -/
def framesC2cex : List (Option Obs × ℚ) :=
  [(some (obsOpen 0), 1 / 10), (some obsFourNoThumb, 1 / 10)]

/-- Counterexample frames for C3: two pinches at P (the second fires), then a
stable pinch 0.3 units away after the cooldown has fully elapsed (1 s). -/
def framesC3cex : List (Option Obs × ℚ) :=
  [(some obsPinchP, 0), (some obsPinchP, 0), (some obsPinchQ, 1)]

/-- Re-fire frames for the amended C3: fire at P, hold P past the cooldown with
no re-fire, clear the active flag by stabilizing a fist, then fire at Q. -/
def framesC3refire : List (Option Obs × ℚ) :=
  [(some obsPinchP, 0), (some obsPinchP, 0), (some obsPinchP, 1),
    (some obsFist, 0), (some obsFist, 0),
    (some obsPinchQ, 0), (some obsPinchQ, 0)]

/-- Two stationary open-palm frames, leaving a nonempty smoothing history, a
last palm position and a last hand scale for the C6 counterexample. -/
def framesC6pre : List (Option Obs × ℚ) :=
  [(some (obsOpen 0), 1 / 10), (some (obsOpen 0), 1 / 10)]

/-- Counterexample landmarks for C8: every digit tip (thumb included, its MCP
being landmark 2) is within the 1.4 slack of its MCP's wrist distance — the
claim's definition of a fist — yet the thumb passes the separate
thumb-extension test and points upward. -/
def lmThumbFist : Landmarks := fun i =>
  if i = 0 then ⟨1 / 2, 1 / 2⟩
  else if i = 2 then ⟨11 / 20, 1 / 2⟩
  else if i = 3 then ⟨3 / 5, 3 / 5⟩
  else if i = 4 then ⟨1 / 2, 11 / 25⟩
  else if i = 5 then ⟨51 / 100, 1 / 2⟩
  else if i = 6 then ⟨13 / 25, 13 / 25⟩
  else if i = 8 then ⟨1 / 2, 51 / 100⟩
  else if i = 9 then ⟨103 / 200, 1 / 2⟩
  else if i = 10 then ⟨13 / 25, 13 / 25⟩
  else if i = 12 then ⟨1 / 2, 13 / 25⟩
  else if i = 13 then ⟨13 / 25, 1 / 2⟩
  else if i = 14 then ⟨53 / 100, 13 / 25⟩
  else if i = 16 then ⟨51 / 100, 13 / 25⟩
  else if i = 17 then ⟨53 / 100, 1 / 2⟩
  else if i = 18 then ⟨27 / 50, 13 / 25⟩
  else if i = 20 then ⟨13 / 25, 13 / 25⟩
  else ⟨0, 0⟩

/-- Witness landmarks for the amended C8: an ordinary fist — all four finger
tips well inside their MCP wrist-distance slack, thumb tucked across the palm
(not extended). -/
def lmFist : Landmarks := fun i =>
  if i = 0 then ⟨1 / 2, 1 / 2⟩
  else if i = 2 then ⟨13 / 25, 9 / 20⟩
  else if i = 3 then ⟨53 / 100, 9 / 20⟩
  else if i = 4 then ⟨13 / 25, 21 / 50⟩
  else if i = 5 then ⟨9 / 20, 2 / 5⟩
  else if i = 6 then ⟨23 / 50, 11 / 25⟩
  else if i = 8 then ⟨47 / 100, 9 / 20⟩
  else if i = 9 then ⟨12 / 25, 39 / 100⟩
  else if i = 10 then ⟨49 / 100, 11 / 25⟩
  else if i = 12 then ⟨1 / 2, 9 / 20⟩
  else if i = 13 then ⟨13 / 25, 2 / 5⟩
  else if i = 14 then ⟨13 / 25, 43 / 100⟩
  else if i = 16 then ⟨13 / 25, 11 / 25⟩
  else if i = 17 then ⟨11 / 20, 2 / 5⟩
  else if i = 18 then ⟨27 / 50, 43 / 100⟩
  else if i = 20 then ⟨27 / 50, 9 / 20⟩
  else ⟨0, 0⟩

/-- State with one frame of fist streak already recorded (C1 witness). -/
def stateC1w : State := { initState with streak := ⟨some GestureName.Closed_Fist, 1⟩ }

/-- State after the first frame of `framesC2cex` (C2 witness). -/
def stateC2w : State :=
  { initState with
    lastPalmPos := some ⟨1 / 2, 1 / 2⟩
    palmHistory := [⟨1 / 2, 1 / 2⟩]
    streak := ⟨some GestureName.Open_Palm, 1⟩ }

/-- State with one frame of pinch streak already recorded (C3 witness). -/
def stateC3w : State := { initState with streak := ⟨some GestureName.Pinch, 1⟩ }

/-- State with a previous smoothed palm position 0.1 left of the incoming
centroid (C7 witness). -/
def stateC7w : State :=
  { initState with
    lastPalmPos := some ⟨3 / 5, 1 / 2⟩
    streak := ⟨some GestureName.Open_Palm, 1⟩ }

/-!
Theorems. General lemmas about the two phases of a detected-hand frame come
first; the claim theorems follow.
-/

/-- The dispatch phase emits only `onGesture`/`onPinch`: never pan or zoom. -/
theorem dispatchStep_no_panzoom (s2 : State) (obs : Obs) (g : GestureName) (c : ℕ) :
    (dispatchStep s2 obs g c).2.filter Event.isPanZoomEv = [] := by
  simp only [dispatchStep]
  split_ifs <;> rfl

/-- The dispatch phase never emits `onMove`. -/
theorem dispatchStep_no_move (s2 : State) (obs : Obs) (g : GestureName) (c : ℕ) :
    (dispatchStep s2 obs g c).2.filter Event.isNonzeroMoveEv = [] := by
  simp only [dispatchStep]
  split_ifs <;> rfl

/-- The dispatch phase never emits `onPalmMove`. -/
theorem dispatchStep_no_palmmove (s2 : State) (obs : Obs) (g : GestureName) (c : ℕ) :
    (dispatchStep s2 obs g c).2.filter Event.isPalmMoveEv = [] := by
  simp only [dispatchStep]
  split_ifs <;> rfl

/-- The dispatch phase leaves every non-pinch state component unchanged. -/
theorem dispatchStep_fields (s2 : State) (obs : Obs) (g : GestureName) (c : ℕ) :
    ((dispatchStep s2 obs g c).1.rotationBoost = s2.rotationBoost) ∧
    ((dispatchStep s2 obs g c).1.streak = s2.streak) ∧
    ((dispatchStep s2 obs g c).1.lastPalmPos = s2.lastPalmPos) ∧
    ((dispatchStep s2 obs g c).1.lastHandScale = s2.lastHandScale) ∧
    ((dispatchStep s2 obs g c).1.palmHistory = s2.palmHistory) := by
  simp only [dispatchStep]
  split_ifs <;> simp

/-- The dispatch phase depends only on the pinch guard fields of its state:
states agreeing there produce the same events and the same pinch guard. -/
theorem dispatchStep_congr (s2 t2 : State) (obs : Obs) (g : GestureName) (c : ℕ)
    (h1 : s2.pinchActive = t2.pinchActive) (h2 : s2.pinchCooldown = t2.pinchCooldown)
    (h3 : s2.lastPinchPos = t2.lastPinchPos) :
    ((dispatchStep s2 obs g c).2 = (dispatchStep t2 obs g c).2) ∧
    ((dispatchStep s2 obs g c).1.pinchActive = (dispatchStep t2 obs g c).1.pinchActive) ∧
    ((dispatchStep s2 obs g c).1.pinchCooldown = (dispatchStep t2 obs g c).1.pinchCooldown) ∧
    ((dispatchStep s2 obs g c).1.lastPinchPos = (dispatchStep t2 obs g c).1.lastPinchPos) := by
  simp only [dispatchStep, h1, h2, h3]
  split_ifs <;> simp [h1, h2, h3]

/-- The motion phase never emits `onGesture` or `onPinch`. -/
theorem motionStep_no_gesture_pinch (cfg : Config) (s1 : State) (obs : Obs) (g : GestureName)
    (c : ℕ) :
    ((motionStep cfg s1 obs g c).2.filter Event.isGestureEv = []) ∧
    ((motionStep cfg s1 obs g c).2.filter Event.isPinchEv = []) := by
  rcases hs : s1.lastHandScale with _ | sc <;>
    simp only [motionStep, hs] <;>
    split_ifs <;>
    simp [Event.isGestureEv, Event.isPinchEv, List.filter]

/-- The motion phase leaves the pinch guard and the streak unchanged. -/
theorem motionStep_fields (cfg : Config) (s1 : State) (obs : Obs) (g : GestureName) (c : ℕ) :
    ((motionStep cfg s1 obs g c).1.pinchActive = s1.pinchActive) ∧
    ((motionStep cfg s1 obs g c).1.pinchCooldown = s1.pinchCooldown) ∧
    ((motionStep cfg s1 obs g c).1.lastPinchPos = s1.lastPinchPos) ∧
    ((motionStep cfg s1 obs g c).1.streak = s1.streak) := by
  rcases hs : s1.lastHandScale with _ | sc <;>
    simp only [motionStep, hs] <;>
    split_ifs <;>
    simp

/-- Under photo lock the motion phase emits neither pan nor zoom. -/
theorem motionStep_locked_no_panzoom (cfg : Config) (s1 : State) (obs : Obs) (g : GestureName)
    (c : ℕ) (hl : cfg.photoLocked = true) :
    (motionStep cfg s1 obs g c).2.filter Event.isPanZoomEv = [] := by
  simp only [motionStep, hl]
  split_ifs <;> rfl

/-- With the rotation momentum at zero, the motion phase keeps it at zero and
emits no nonzero `onMove`. -/
theorem motionStep_rotation_zero (cfg : Config) (s1 : State) (obs : Obs) (g : GestureName)
    (c : ℕ) (h : s1.rotationBoost = 0) :
    ((motionStep cfg s1 obs g c).1.rotationBoost = 0) ∧
    ((motionStep cfg s1 obs g c).2.filter Event.isNonzeroMoveEv = []) := by
  rcases hs : s1.lastHandScale with _ | sc <;>
    simp only [motionStep, hs, h] <;>
    split_ifs <;>
    simp_all [Event.isNonzeroMoveEv, List.filter]

/-- With the rotation momentum at zero, one full frame keeps it at zero and
emits no nonzero `onMove`. -/
theorem step_rotation_zero (cfg : Config) (s : State) (fr : Option Obs) (delta : ℚ)
    (h : s.rotationBoost = 0) :
    ((step cfg s fr delta).1.rotationBoost = 0) ∧
    ((step cfg s fr delta).2.filter Event.isNonzeroMoveEv = []) := by
  rcases fr with _ | obs
  · unfold step
    split_ifs <;> simp [h, Event.isNonzeroMoveEv, List.filter]
  · have hs0 :
        (if 0 < s.pinchCooldown then { s with pinchCooldown := s.pinchCooldown - delta }
          else s).rotationBoost = 0 := by
      split_ifs <;> simpa using h
    simp only [step, handStep]
    constructor
    · rw [(dispatchStep_fields _ _ _ _).1]
      exact (motionStep_rotation_zero _ _ _ _ _ (by simpa using hs0)).1
    · rw [List.filter_append,
        (motionStep_rotation_zero _ _ _ _ _ (by simpa using hs0)).2,
        dispatchStep_no_move]
      rfl

/-- C10: the rotation momentum is identically zero in every reachable state —
it starts at 0 and every frame either resets it to 0 or multiplies it by 0.9
(optionally snapping to 0) — so every `onMove` invocation of every frame, with
or without a detected hand, passes speed exactly 0. -/
theorem C10_rotation_always_zero (cfg : Config) (frames : List (Option Obs × ℚ)) :
    ((run cfg initState frames).1.rotationBoost = 0) ∧
    ((run cfg initState frames).2.filter Event.isNonzeroMoveEv = []) := by
  suffices h : ∀ s : State, s.rotationBoost = 0 →
      ((run cfg s frames).1.rotationBoost = 0) ∧
      ((run cfg s frames).2.filter Event.isNonzeroMoveEv = []) from h initState rfl
  induction frames with
  | nil =>
    intro s hs
    simpa [run] using hs
  | cons f rest ih =>
    intro s hs
    have h1 := step_rotation_zero cfg s f.1 f.2 hs
    have h2 := ih (step cfg s f.1 f.2).1 h1.1
    simp only [run]
    exact ⟨h2.1, by rw [List.filter_append, h1.2, h2.2]; rfl⟩

/-- C9: with the photo lock set, a frame emits no pan and no zoom, while the
classification, streak update, gesture dispatch and pinch dispatch — events
and pinch-guard state alike — are exactly those of the same frame without the
lock. -/
theorem C9_photo_lock (cfg : Config) (s : State) (fr : Option Obs) (delta : ℚ) :
    ((step { cfg with photoLocked := true } s fr delta).2.filter Event.isPanZoomEv = []) ∧
    ((step { cfg with photoLocked := true } s fr delta).2.filter Event.isGestureEv =
        (step { cfg with photoLocked := false } s fr delta).2.filter Event.isGestureEv) ∧
    ((step { cfg with photoLocked := true } s fr delta).2.filter Event.isPinchEv =
        (step { cfg with photoLocked := false } s fr delta).2.filter Event.isPinchEv) ∧
    ((step { cfg with photoLocked := true } s fr delta).1.streak =
        (step { cfg with photoLocked := false } s fr delta).1.streak) ∧
    ((step { cfg with photoLocked := true } s fr delta).1.pinchActive =
        (step { cfg with photoLocked := false } s fr delta).1.pinchActive) ∧
    ((step { cfg with photoLocked := true } s fr delta).1.pinchCooldown =
        (step { cfg with photoLocked := false } s fr delta).1.pinchCooldown) ∧
    ((step { cfg with photoLocked := true } s fr delta).1.lastPinchPos =
        (step { cfg with photoLocked := false } s fr delta).1.lastPinchPos) := by
  rcases fr with _ | obs
  · exact ⟨rfl, rfl, rfl, rfl, rfl, rfl, rfl⟩
  · simp only [step, handStep]
    generalize (if 0 < s.pinchCooldown then { s with pinchCooldown := s.pinchCooldown - delta }
      else s) = s0
    have hfT := motionStep_fields { cfg with photoLocked := true }
      { s0 with streak := stabStep s0.streak (detectedOf obs) } obs (detectedOf obs)
      (stabStep s0.streak (detectedOf obs)).count
    have hfF := motionStep_fields { cfg with photoLocked := false }
      { s0 with streak := stabStep s0.streak (detectedOf obs) } obs (detectedOf obs)
      (stabStep s0.streak (detectedOf obs)).count
    have hc := dispatchStep_congr
      (motionStep { cfg with photoLocked := true }
        { s0 with streak := stabStep s0.streak (detectedOf obs) } obs (detectedOf obs)
        (stabStep s0.streak (detectedOf obs)).count).1
      (motionStep { cfg with photoLocked := false }
        { s0 with streak := stabStep s0.streak (detectedOf obs) } obs (detectedOf obs)
        (stabStep s0.streak (detectedOf obs)).count).1
      obs (detectedOf obs) (stabStep s0.streak (detectedOf obs)).count
      (by rw [hfT.1, hfF.1]) (by rw [hfT.2.1, hfF.2.1]) (by rw [hfT.2.2.1, hfF.2.2.1])
    refine ⟨?_, ?_, ?_, ?_, hc.2.1, hc.2.2.1, hc.2.2.2⟩
    · rw [List.filter_append, motionStep_locked_no_panzoom _ _ _ _ _ rfl,
        dispatchStep_no_panzoom]
      rfl
    · rw [List.filter_append, List.filter_append,
        (motionStep_no_gesture_pinch _ _ _ _ _).1, (motionStep_no_gesture_pinch _ _ _ _ _).1,
        hc.1]
    · rw [List.filter_append, List.filter_append,
        (motionStep_no_gesture_pinch _ _ _ _ _).2, (motionStep_no_gesture_pinch _ _ _ _ _).2,
        hc.1]
    · rw [(dispatchStep_fields _ _ _ _).2.1, (dispatchStep_fields _ _ _ _).2.1,
        hfT.2.2.2, hfF.2.2.2]

/-- C6, amended: on a no-hand frame the stabilizer resets to `{None, 0}` and
no fault is raised — the step is total, emitting exactly one residual
`onMove` — but of the continuous-motion state only the rotation momentum is
decayed (× 0.9); the position history is cleared outright, and the last palm
position and the last hand scale are retained unchanged rather than decayed. -/
theorem C6_nohand_frame (cfg : Config) (s : State) (delta : ℚ) :
    ((step cfg s none delta).1.streak = ⟨none, 0⟩) ∧
    ((step cfg s none delta).1.palmHistory = []) ∧
    ((step cfg s none delta).1.rotationBoost = s.rotationBoost * (9 / 10)) ∧
    ((step cfg s none delta).1.lastPalmPos = s.lastPalmPos) ∧
    ((step cfg s none delta).1.lastHandScale = s.lastHandScale) ∧
    ((step cfg s none delta).2 = [Event.move (s.rotationBoost * (9 / 10) * (1 / 20))]) := by
  unfold step
  split_ifs <;> simp

/-- In the palm-control branch without photo lock, the `onPalmMove` emissions
of the motion phase are exactly the threshold-gated scaled smoothed delta. -/
theorem motionStep_palm_events (cfg : Config) (s1 : State) (obs : Obs) (g : GestureName)
    (c : ℕ) (hbr : g = GestureName.Open_Palm ∨ extendedCount obs.fingers = 4)
    (hlk : cfg.photoLocked = false) :
    (motionStep cfg s1 obs g c).2.filter Event.isPalmMoveEv =
      (if |(deltasOf s1.lastPalmPos (avgOf (pushHist s1.palmHistory obs.rawPalm))).1| > 1 / 1000 ∨
          |(deltasOf s1.lastPalmPos (avgOf (pushHist s1.palmHistory obs.rawPalm))).2| > 1 / 1000
        then
        [Event.palmMove
          ((deltasOf s1.lastPalmPos (avgOf (pushHist s1.palmHistory obs.rawPalm))).1 *
            cfg.palmSpeed)
          ((deltasOf s1.lastPalmPos (avgOf (pushHist s1.palmHistory obs.rawPalm))).2 *
            cfg.palmSpeed)]
      else []) := by
  rcases hs : s1.lastHandScale with _ | sc <;>
    simp only [motionStep, hs, hlk] <;>
    rw [if_pos hbr] <;>
    split_ifs <;>
    simp_all [Event.isPalmMoveEv, List.filter]

/-- C7: during palm control (palm branch entered, no photo lock), a smoothed
palm delta at or below the 0.001 minimum-motion threshold in both coordinates
emits no `onPalmMove` — in particular a delta exactly equal to the threshold
does not fire, the test being strictly exclusive — while a delta above the
threshold in either coordinate emits exactly one `onPalmMove` whose payload
is the delta multiplied by the configured pan sensitivity. -/
theorem C7_palm_threshold (cfg : Config) (s : State) (obs : Obs) (delta : ℚ)
    (hbr : detectedOf obs = GestureName.Open_Palm ∨ extendedCount obs.fingers = 4)
    (hlk : cfg.photoLocked = false) :
    ((|(deltasOf s.lastPalmPos (avgOf (pushHist s.palmHistory obs.rawPalm))).1| ≤ 1 / 1000 ∧
        |(deltasOf s.lastPalmPos (avgOf (pushHist s.palmHistory obs.rawPalm))).2| ≤ 1 / 1000) →
      (step cfg s (some obs) delta).2.filter Event.isPalmMoveEv = []) ∧
    ((|(deltasOf s.lastPalmPos (avgOf (pushHist s.palmHistory obs.rawPalm))).1| > 1 / 1000 ∨
        |(deltasOf s.lastPalmPos (avgOf (pushHist s.palmHistory obs.rawPalm))).2| > 1 / 1000) →
      (step cfg s (some obs) delta).2.filter Event.isPalmMoveEv =
        [Event.palmMove
          ((deltasOf s.lastPalmPos (avgOf (pushHist s.palmHistory obs.rawPalm))).1 *
            cfg.palmSpeed)
          ((deltasOf s.lastPalmPos (avgOf (pushHist s.palmHistory obs.rawPalm))).2 *
            cfg.palmSpeed)]) := by
  simp only [step, handStep]
  generalize hg : (if 0 < s.pinchCooldown then { s with pinchCooldown := s.pinchCooldown - delta }
    else s) = s0
  have h1 : s0.palmHistory = s.palmHistory := by rw [← hg]; split_ifs <;> rfl
  have h2 : s0.lastPalmPos = s.lastPalmPos := by rw [← hg]; split_ifs <;> rfl
  rw [List.filter_append, dispatchStep_no_palmmove, List.append_nil,
    motionStep_palm_events cfg _ obs _ _ hbr hlk]
  simp only [h1, h2]
  constructor
  · intro hle
    rw [if_neg]
    push_neg
    exact ⟨hle.1, hle.2⟩
  · intro hgt
    rw [if_pos hgt]

/-- C7, witness: a previous palm position 0.1 to the right of the incoming
centroid yields delta `(1/10, 0)`, above the threshold, and fires
`onPalmMove` with payload `(1/10 × 25, 0) = (5/2, 0)`. -/
theorem C7_palm_threshold_witness :
    (step cfgA stateC7w (some (obsOpen 0)) 0).2.filter Event.isPalmMoveEv =
      [Event.palmMove (5 / 2) 0] := by
  have h := (C7_palm_threshold cfgA stateC7w (obsOpen 0) 0
    (Or.inl (by norm_num +decide [detectedOf, classify, extendedCount, obsOpen, dist2]))
    rfl).2
    (by norm_num +decide [deltasOf, avgOf, pushHist, stateC7w, initState, obsOpen,
      abs_of_nonneg, abs_of_nonpos])
  rw [h]
  norm_num +decide [deltasOf, avgOf, pushHist, stateC7w, initState, obsOpen, cfgA]

set_option maxRecDepth 100000 in
/-- C1, counterexample: 5 fist frames (threshold 2), one `None` frame, then 5
more fist frames invoke the generic gesture callback 8 times — once on every
frame whose streak count has reached the threshold (frames 2-5 of each fist
run) — not twice as the claim asserts; the dispatcher re-invokes the callback
every frame while the gesture stays stable. -/
theorem C1_counterexample :
    ((run cfgA initState framesC1).2.filter Event.isGestureEv).length = 8 ∧ (8 : ℕ) ≠ 2 := by
  refine ⟨?_, by decide⟩
  norm_num +decide [run, step, handStep, motionStep, dispatchStep, detectedOf, classify,
    extendedCount, stabStep, thresholdOf, pushHist, avgOf, deltasOf, posChanged, initState,
    cfgA, obsFist, obsNone, framesC1, dist2, Event.isGestureEv, List.filter,
    abs_of_nonneg, abs_of_nonpos]

set_option maxRecDepth 100000 in
/-- C1, amended: the generic gesture callback is invoked on EVERY frame whose
stabilized gesture is neither `None` nor `Pinch` — once per stable frame, not
once per stabilization streak — so the claimed scenario (5 × `ClosedFist`,
1 × `None`, 5 × `ClosedFist`, threshold 2) invokes it 8 times: frames 2-5 of
each fist run. -/
theorem C1_gesture_per_stable_frame :
    (∀ (cfg : Config) (s : State) (obs : Obs) (delta : ℚ),
        detectedOf obs ≠ GestureName.None → detectedOf obs ≠ GestureName.Pinch →
        thresholdOf (detectedOf obs) ≤ (stabStep s.streak (detectedOf obs)).count →
        (step cfg s (some obs) delta).2.filter Event.isGestureEv =
          [Event.gesture (detectedOf obs)]) ∧
    ((run cfgA initState framesC1).2.filter Event.isGestureEv).length = 8 := by
  constructor
  · intro cfg s obs delta hN hP hst
    simp only [step, handStep]
    generalize hg : (if 0 < s.pinchCooldown then { s with pinchCooldown := s.pinchCooldown - delta }
      else s) = s0
    have hstreak : s0.streak = s.streak := by rw [← hg]; split_ifs <;> rfl
    rw [List.filter_append, (motionStep_no_gesture_pinch _ _ _ _ _).1, List.nil_append]
    simp only [dispatchStep, hstreak]
    rw [if_pos hst, if_neg hP, if_neg hN]
    rfl
  · norm_num +decide [run, step, handStep, motionStep, dispatchStep, detectedOf, classify,
      extendedCount, stabStep, thresholdOf, pushHist, avgOf, deltasOf, posChanged, initState,
      cfgA, obsFist, obsNone, framesC1, dist2, Event.isGestureEv, List.filter,
      abs_of_nonneg, abs_of_nonpos]

/-- C1, witness: from one recorded fist frame, a second fist frame reaches the
threshold and the frame emits exactly one generic gesture invocation. -/
theorem C1_gesture_per_stable_frame_witness :
    (step cfgA stateC1w (some obsFist) (1 / 10)).2.filter Event.isGestureEv =
      [Event.gesture GestureName.Closed_Fist] := by
  have h := C1_gesture_per_stable_frame.1 cfgA stateC1w obsFist (1 / 10)
    (by norm_num +decide [detectedOf, classify, extendedCount, obsFist, dist2])
    (by norm_num +decide [detectedOf, classify, extendedCount, obsFist, dist2])
    (by norm_num +decide [detectedOf, classify, extendedCount, obsFist, dist2, stabStep,
      thresholdOf, stateC1w, initState])
  rw [h]
  norm_num +decide [detectedOf, classify, extendedCount, obsFist, dist2]

/-- The dispatch phase never emits `onZoom`. -/
theorem dispatchStep_no_zoom (s2 : State) (obs : Obs) (g : GestureName) (c : ℕ) :
    (dispatchStep s2 obs g c).2.filter Event.isZoomEv = [] := by
  simp only [dispatchStep]
  split_ifs <;> rfl

/-- A motion phase that emits a zoom event had a stable streak and a previous
smoothed hand scale. -/
theorem motionStep_zoom_cond (cfg : Config) (s1 : State) (obs : Obs) (g : GestureName)
    (c : ℕ) (h : (motionStep cfg s1 obs g c).2.filter Event.isZoomEv ≠ []) :
    thresholdOf g ≤ c ∧ s1.lastHandScale ≠ none := by
  rcases hs : s1.lastHandScale with _ | sc
  · exfalso
    apply h
    simp only [motionStep, hs]
    split_ifs <;> rfl
  · refine ⟨?_, by simp [hs]⟩
    by_contra hst
    apply h
    simp only [motionStep, hs]
    split_ifs <;> rfl

/-- A frame whose motion phase emits any pan or zoom event entered the
palm-control branch (label `Open_Palm`, or four extended non-thumb fingers)
with the photo lock off. -/
theorem motionStep_panzoom_cond (cfg : Config) (s1 : State) (obs : Obs) (g : GestureName)
    (c : ℕ) (h : (motionStep cfg s1 obs g c).2.filter Event.isPanZoomEv ≠ []) :
    (g = GestureName.Open_Palm ∨ extendedCount obs.fingers = 4) ∧ cfg.photoLocked = false := by
  constructor
  · by_contra hbr
    apply h
    simp only [motionStep]
    rw [if_neg hbr]
    split_ifs <;> rfl
  · by_contra hlk
    exact h (motionStep_locked_no_panzoom cfg s1 obs g c (by simpa using hlk))

set_option maxRecDepth 100000 in
/-- C2, counterexample: an open-palm frame followed by a frame with four
extended fingers but a curled thumb — classified `None` — still emits
`onPalmMove` (payload `(-5/4, 0)` here): the palm-control branch is entered
through `extendedCount === 4` regardless of the stabilized label, although
the only `Open_Palm` streak of the run ended at count 1, below the threshold
of 2, and the emitting frame's detected gesture is `None`. -/
theorem C2_counterexample :
    ((run cfgA initState framesC2cex).2.filter Event.isPanZoomEv =
      [Event.palmMove (-(5 / 4)) 0]) ∧
    detectedOf obsFourNoThumb = GestureName.None ∧
    (run cfgA initState [((some (obsOpen 0) : Option Obs), (1 / 10 : ℚ))]).1.streak =
      ⟨some GestureName.Open_Palm, 1⟩ := by
  refine ⟨?_, ?_, ?_⟩ <;>
    norm_num +decide [run, step, handStep, motionStep, dispatchStep, detectedOf, classify,
      extendedCount, stabStep, thresholdOf, pushHist, avgOf, deltasOf, posChanged, initState,
      cfgA, obsOpen, obsFourNoThumb, framesC2cex, dist2, Event.isPanZoomEv, List.filter,
      abs_of_nonneg, abs_of_nonpos]

set_option maxRecDepth 100000 in
/-- C2, amended: `onPalmMove` and `onZoom` are emitted only by frames that
enter the palm-control branch — detected label `Open_Palm` or all four
non-thumb fingers extended — with the photo lock off (stability gates only
the zoom path, and `onPalmMove` also needs a previous smoothed position and a
super-threshold delta); the claimed 10-frame scenario holds: with pan
sensitivity 25 and the palm centroid advancing 0.01/frame, emissions begin at
frame 2 (when the 2-frame threshold is reached) and the per-frame `deltaX`
settles at magnitude 0.01 × 25 = 1/4 once the 4-sample smoothing window is
full (frames 5-10), mirrored in sign. -/
theorem C2_panzoom_scope :
    (∀ (cfg : Config) (s : State) (obs : Obs) (delta : ℚ),
        (step cfg s (some obs) delta).2.filter Event.isPanZoomEv ≠ [] →
        (detectedOf obs = GestureName.Open_Palm ∨ extendedCount obs.fingers = 4) ∧
          cfg.photoLocked = false) ∧
    (∀ (cfg : Config) (s : State) (obs : Obs) (delta : ℚ),
        (step cfg s (some obs) delta).2.filter Event.isZoomEv ≠ [] →
        thresholdOf (detectedOf obs) ≤ (stabStep s.streak (detectedOf obs)).count ∧
          s.lastHandScale ≠ none) ∧
    ((run cfgA initState framesC2).2.filter Event.isPalmMoveEv =
      [Event.palmMove (-(1 / 8)) 0, Event.palmMove (-(1 / 8)) 0, Event.palmMove (-(1 / 8)) 0,
        Event.palmMove (-(1 / 4)) 0, Event.palmMove (-(1 / 4)) 0, Event.palmMove (-(1 / 4)) 0,
        Event.palmMove (-(1 / 4)) 0, Event.palmMove (-(1 / 4)) 0,
        Event.palmMove (-(1 / 4)) 0]) := by
  refine ⟨?_, ?_, ?_⟩
  · intro cfg s obs delta h
    simp only [step, handStep] at h
    rw [List.filter_append, dispatchStep_no_panzoom, List.append_nil] at h
    exact motionStep_panzoom_cond _ _ _ _ _ h
  · intro cfg s obs delta h
    simp only [step, handStep] at h
    generalize hg : (if 0 < s.pinchCooldown then { s with pinchCooldown := s.pinchCooldown - delta }
      else s) = s0 at h
    have hstreak : s0.streak = s.streak := by rw [← hg]; split_ifs <;> rfl
    have hls : s0.lastHandScale = s.lastHandScale := by rw [← hg]; split_ifs <;> rfl
    rw [List.filter_append, dispatchStep_no_zoom, List.append_nil] at h
    have hc := motionStep_zoom_cond _ _ _ _ _ h
    constructor
    · have h1 := hc.1
      rwa [hstreak] at h1
    · have h2 := hc.2
      simpa [hls] using h2
  · norm_num +decide [run, step, handStep, motionStep, dispatchStep, detectedOf, classify,
      extendedCount, stabStep, thresholdOf, pushHist, avgOf, deltasOf, posChanged, initState,
      cfgA, obsOpen, framesC2, dist2, Event.isPalmMoveEv, List.filter,
      abs_of_nonneg, abs_of_nonpos]

/-- C2, witness: the `None`-labelled four-finger frame of `framesC2cex` does
emit a pan event, and the theorem pins the cause: the frame entered the
palm-control branch through `extendedCount = 4` with the photo lock off. -/
theorem C2_panzoom_scope_witness :
    (detectedOf obsFourNoThumb = GestureName.Open_Palm ∨
      extendedCount obsFourNoThumb.fingers = 4) ∧ cfgA.photoLocked = false :=
  C2_panzoom_scope.1 cfgA stateC2w obsFourNoThumb (1 / 10)
    (by norm_num +decide [step, handStep, motionStep, dispatchStep, detectedOf, classify,
      extendedCount, stabStep, thresholdOf, pushHist, avgOf, deltasOf, posChanged, initState,
      cfgA, obsFourNoThumb, stateC2w, dist2, Event.isPanZoomEv, List.filter,
      abs_of_nonneg, abs_of_nonpos])

/-- A pinch event can only come out of the dispatch phase with a stable
`Pinch` label, a clear active flag, an elapsed cooldown and a changed
position. -/
theorem dispatchStep_pinch_cond (s2 : State) (obs : Obs) (g : GestureName) (c : ℕ) (p : Pt)
    (h : Event.pinch p ∈ (dispatchStep s2 obs g c).2) :
    g = GestureName.Pinch ∧ thresholdOf g ≤ c ∧ s2.pinchActive = false ∧
      s2.pinchCooldown ≤ 0 ∧
      posChanged s2.lastPinchPos (1 - (obs.thumbTip.x + obs.indexTip.x) / 2)
        ((obs.thumbTip.y + obs.indexTip.y) / 2) := by
  simp only [dispatchStep] at h
  split_ifs at h with h1 h2 h3 h4 h5 <;>
    first
      | exact ⟨h2, h1, by simpa using h3.1, h3.2.1, h3.2.2⟩
      | exact absurd h (List.not_mem_nil _)
      | exact Event.noConfusion (List.mem_singleton.mp h)

set_option maxRecDepth 100000 in
/-- C3, counterexample: the pinch stabilizes and fires at P on frame 2; frame
3 is a stable pinch 0.3 units away with the cooldown fully elapsed (1 s has
passed, cooldown −7/10 ≤ 0), yet `onPinch` does not fire again, because the
pinch-active flag is still set — the run ends with exactly one pinch event
where the claim ("a position ≥ 0.1 units away fires again immediately,
cooldown permitting") requires two. -/
theorem C3_counterexample :
    ((run cfgA initState framesC3cex).2.filter Event.isPinchEv =
      [Event.pinch ⟨49 / 100, 1 / 2⟩]) ∧
    ((run cfgA initState framesC3cex).1.pinchCooldown = -(7 / 10)) ∧
    ((run cfgA initState framesC3cex).1.streak = ⟨some GestureName.Pinch, 3⟩) ∧
    ((run cfgA initState framesC3cex).1.pinchActive = true) := by
  refine ⟨?_, ?_, ?_, ?_⟩ <;>
    norm_num +decide [run, step, handStep, motionStep, dispatchStep, detectedOf, classify,
      extendedCount, stabStep, thresholdOf, pushHist, avgOf, deltasOf, posChanged, initState,
      cfgA, obsPinchP, obsPinchQ, framesC3cex, dist2, Event.isPinchEv, List.filter,
      abs_of_nonneg, abs_of_nonpos]

set_option maxRecDepth 100000 in
/-- C3, amended: `onPinch` fires only when the stabilized gesture is `Pinch`,
the decremented cooldown has reached zero, the position moved by more than
0.1 on some axis (or no fire is recorded), AND the pinch-active flag is
clear; after a fire that flag stays set while `Pinch` remains stable,
blocking any re-fire regardless of cooldown and position, and it clears only
when a different gesture stabilizes or an unstable `None` frame arrives —
after which a pinch ≥ 0.1 away fires again, cooldown permitting, as the
refire run shows (fire at P, held pinch past the cooldown with no re-fire,
fist interruption, fire at Q). -/
theorem C3_pinch_guard :
    (∀ (cfg : Config) (s : State) (obs : Obs) (delta : ℚ) (p : Pt),
        Event.pinch p ∈ (step cfg s (some obs) delta).2 →
        detectedOf obs = GestureName.Pinch ∧
        thresholdOf GestureName.Pinch ≤ (stabStep s.streak (detectedOf obs)).count ∧
        s.pinchActive = false ∧
        (if 0 < s.pinchCooldown then s.pinchCooldown - delta else s.pinchCooldown) ≤ 0 ∧
        posChanged s.lastPinchPos (1 - (obs.thumbTip.x + obs.indexTip.x) / 2)
          ((obs.thumbTip.y + obs.indexTip.y) / 2)) ∧
    ((run cfgA initState framesC3refire).2.filter Event.isPinchEv =
      [Event.pinch ⟨49 / 100, 1 / 2⟩, Event.pinch ⟨19 / 100, 1 / 2⟩]) := by
  constructor
  · intro cfg s obs delta p h
    simp only [step, handStep] at h
    generalize hg : (if 0 < s.pinchCooldown then { s with pinchCooldown := s.pinchCooldown - delta }
      else s) = s0 at h
    have hact : s0.pinchActive = s.pinchActive := by rw [← hg]; split_ifs <;> rfl
    have hcd : s0.pinchCooldown =
        (if 0 < s.pinchCooldown then s.pinchCooldown - delta else s.pinchCooldown) := by
      rw [← hg]; split_ifs <;> rfl
    have hpp : s0.lastPinchPos = s.lastPinchPos := by rw [← hg]; split_ifs <;> rfl
    have hstreak : s0.streak = s.streak := by rw [← hg]; split_ifs <;> rfl
    rw [List.mem_append] at h
    rcases h with h | h
    · exfalso
      have hmem : Event.pinch p ∈
          (motionStep cfg { s0 with streak := stabStep s0.streak (detectedOf obs) } obs
            (detectedOf obs) (stabStep s0.streak (detectedOf obs)).count).2.filter
            Event.isPinchEv :=
        List.mem_filter.mpr ⟨h, rfl⟩
      rw [(motionStep_no_gesture_pinch _ _ _ _ _).2] at hmem
      exact List.not_mem_nil _ hmem
    · have hm := motionStep_fields cfg { s0 with streak := stabStep s0.streak (detectedOf obs) }
        obs (detectedOf obs) (stabStep s0.streak (detectedOf obs)).count
      have hc := dispatchStep_pinch_cond _ obs _ _ p h
      refine ⟨hc.1, ?_, ?_, ?_, ?_⟩
      · have := hc.2.1
        rw [hc.1] at this ⊢
        rwa [hstreak] at this
      · have := hc.2.2.1
        rwa [hm.1, hact] at this
      · have := hc.2.2.2.1
        rwa [hm.2.1, hcd] at this
      · have := hc.2.2.2.2
        rwa [hm.2.2.1, hpp] at this
  · norm_num +decide [run, step, handStep, motionStep, dispatchStep, detectedOf, classify,
      extendedCount, stabStep, thresholdOf, pushHist, avgOf, deltasOf, posChanged, initState,
      cfgA, obsPinchP, obsPinchQ, obsFist, framesC3refire, dist2, Event.isPinchEv, List.filter,
      abs_of_nonneg, abs_of_nonpos]

/-- C3, witness: with one pinch frame recorded, a clear active flag, zero
cooldown and no last fire position, the next pinch frame fires and the
theorem recovers every guard condition at that input. -/
theorem C3_pinch_guard_witness :
    detectedOf obsPinchP = GestureName.Pinch ∧
    thresholdOf GestureName.Pinch ≤ (stabStep stateC3w.streak (detectedOf obsPinchP)).count ∧
    stateC3w.pinchActive = false ∧
    (if 0 < stateC3w.pinchCooldown then stateC3w.pinchCooldown - 0
      else stateC3w.pinchCooldown) ≤ 0 ∧
    posChanged stateC3w.lastPinchPos (1 - (obsPinchP.thumbTip.x + obsPinchP.indexTip.x) / 2)
      ((obsPinchP.thumbTip.y + obsPinchP.indexTip.y) / 2) :=
  C3_pinch_guard.1 cfgA stateC3w obsPinchP 0 ⟨49 / 100, 1 / 2⟩
    (by norm_num +decide [step, handStep, motionStep, dispatchStep, detectedOf, classify,
      extendedCount, stabStep, thresholdOf, pushHist, avgOf, deltasOf, posChanged, initState,
      cfgA, obsPinchP, stateC3w, dist2, abs_of_nonneg, abs_of_nonpos])

/-- C6, counterexample: after two stationary open-palm frames the session
holds a nonempty smoothing history, a last palm position and a last hand
scale; the next no-hand frame snaps the history to empty and leaves the last
palm position and the last hand scale untouched — so the continuous-motion
state is neither all "progressively decayed" nor "multiplied toward zero" as
the claim asserts: part is discarded outright and part is retained at full
value. -/
theorem C6_counterexample :
    ((run cfgA initState framesC6pre).1.palmHistory = [⟨1 / 2, 1 / 2⟩, ⟨1 / 2, 1 / 2⟩]) ∧
    ((run cfgA initState framesC6pre).1.lastPalmPos = some ⟨1 / 2, 1 / 2⟩) ∧
    ((run cfgA initState framesC6pre).1.lastHandScale = some (1 / 5)) ∧
    ((step cfgA (run cfgA initState framesC6pre).1 none (1 / 10)).1.palmHistory = []) ∧
    ((step cfgA (run cfgA initState framesC6pre).1 none (1 / 10)).1.lastPalmPos =
        some ⟨1 / 2, 1 / 2⟩) ∧
    ((step cfgA (run cfgA initState framesC6pre).1 none (1 / 10)).1.lastHandScale =
        some (1 / 5)) := by
  norm_num +decide [run, step, handStep, motionStep, dispatchStep, detectedOf, classify,
    extendedCount, stabStep, thresholdOf, pushHist, avgOf, deltasOf, posChanged, initState,
    cfgA, obsOpen, framesC6pre, dist2, abs_of_nonneg, abs_of_nonpos]

/-- C4, counterexample: with thumb and index both extended (an ordinary "gun"
hand shape, no pinch), the source classifies `Pointing_Up` through its
thumb-blind clause (6), while the claim's list — clause (6) demanding that
only the index is extended — matches no clause and yields `None`. -/
theorem C4_counterexample :
    classify ⟨true, true, false, false, false⟩ 1 0 = GestureName.Pointing_Up ∧
    specClassify ⟨true, true, false, false, false⟩ 1 0 = GestureName.None ∧
    GestureName.Pointing_Up ≠ GestureName.None := by
  refine ⟨?_, ?_, by decide⟩ <;> norm_num [classify, specClassify, extendedCount]

/-- C4, amended: the source classifier agrees everywhere with the claim's
first-match decision list once clause (6) (`Pointing_Up`) is read as ignoring
the thumb, exactly as the source's test does; every other clause and the
claimed evaluation order are as stated. -/
theorem C4_classify_matches_spec (f : FingerState) (pd2 thumbDiffY : ℚ) :
    classify f pd2 thumbDiffY = specClassifyFixed f pd2 thumbDiffY := by
  rcases f with ⟨th, ix, md, rg, pk⟩
  cases th <;> cases ix <;> cases md <;> cases rg <;> cases pk <;>
    simp [classify, specClassifyFixed, extendedCount]

/-- C8, counterexample: a landmark set in which every digit tip — thumb
included, its MCP being landmark 2 — lies within the 1.4 slack of its MCP's
wrist distance (the claim's definition of a fist; first five conjuncts), yet
classification returns `Thumb_Up`, not `Closed_Fist`. The mechanism is shown
explicitly: the thumb-extension test of `getFingerState` measures the thumb
tip against the pinky MCP and the palm width, not against the wrist, so on
this narrow palm (wrist `(0.5, 0.5)`, index MCP `(0.51, 0.5)`, pinky MCP
`(0.53, 0.5)`, palmWidth² = 0.0004) the tucked thumb (tip `(0.5, 0.44)`, MCP
`(0.55, 0.5)`) satisfies the claim's fist slack (0.0036 < 1.96 × 0.0025 =
0.0049) while still passing the extension test (tip-to-pinky-MCP² = 0.0045 >
0.81 × 0.0004, tip far from its IP joint), all four fingers are curled, and
`thumbDiffY = 0.44 − 0.5 = −0.06 < −0.05` steers clause (4) to `Thumb_Up`. -/
theorem C8_counterexample :
    (dist2 (lmThumbFist 4) (lmThumbFist 0) <
        dist2 (lmThumbFist 2) (lmThumbFist 0) * (49 / 25)) ∧
    (dist2 (lmThumbFist 8) (lmThumbFist 0) <
        dist2 (lmThumbFist 5) (lmThumbFist 0) * (49 / 25)) ∧
    (dist2 (lmThumbFist 12) (lmThumbFist 0) <
        dist2 (lmThumbFist 9) (lmThumbFist 0) * (49 / 25)) ∧
    (dist2 (lmThumbFist 16) (lmThumbFist 0) <
        dist2 (lmThumbFist 13) (lmThumbFist 0) * (49 / 25)) ∧
    (dist2 (lmThumbFist 20) (lmThumbFist 0) <
        dist2 (lmThumbFist 17) (lmThumbFist 0) * (49 / 25)) ∧
    thumbExtended lmThumbFist = true ∧
    getFingerState lmThumbFist = ⟨true, false, false, false, false⟩ ∧
    (lmThumbFist 4).y - (lmThumbFist 2).y < -(1 / 20) ∧
    detectGesture lmThumbFist = GestureName.Thumb_Up ∧
    GestureName.Thumb_Up ≠ GestureName.Closed_Fist := by
  refine ⟨?_, ?_, ?_, ?_, ?_, ?_, ?_, ?_, ?_, by decide⟩ <;>
    norm_num +decide [detectGesture, classify, getFingerState, isCurled, thumbExtended,
      palmWidth2, extendedCount, dist2, lmThumbFist]

/-- C8, amended: for every landmark set in which each of the four non-thumb
finger tips is within the 1.4 slack of its MCP's wrist distance AND the thumb
fails the thumb-extension test (tip not beyond 0.9 × palm width from the
pinky MCP, or curled onto its IP joint), classification returns
`Closed_Fist`. -/
theorem C8_fist_classification (lm : Landmarks)
    (hi : dist2 (lm 8) (lm 0) < dist2 (lm 5) (lm 0) * (49 / 25))
    (hm : dist2 (lm 12) (lm 0) < dist2 (lm 9) (lm 0) * (49 / 25))
    (hr : dist2 (lm 16) (lm 0) < dist2 (lm 13) (lm 0) * (49 / 25))
    (hp : dist2 (lm 20) (lm 0) < dist2 (lm 17) (lm 0) * (49 / 25))
    (ht : thumbExtended lm = false) :
    detectGesture lm = GestureName.Closed_Fist := by
  have hI : isCurled lm 8 6 5 = true := by simp [isCurled, hi]
  have hM : isCurled lm 12 10 9 = true := by simp [isCurled, hm]
  have hR : isCurled lm 16 14 13 = true := by simp [isCurled, hr]
  have hP2 : isCurled lm 20 18 17 = true := by simp [isCurled, hp]
  simp [detectGesture, classify, getFingerState, extendedCount, hI, hM, hR, hP2, ht]

/-- C8, witness: an ordinary fist — all four finger tips close to the wrist,
thumb tucked across the palm — classifies as `Closed_Fist`. -/
theorem C8_fist_classification_witness :
    detectGesture lmFist = GestureName.Closed_Fist :=
  C8_fist_classification lmFist
    (by norm_num +decide [dist2, lmFist])
    (by norm_num +decide [dist2, lmFist])
    (by norm_num +decide [dist2, lmFist])
    (by norm_num +decide [dist2, lmFist])
    (by norm_num +decide [thumbExtended, palmWidth2, dist2, lmFist])

/-- C5, counterexample: a frame classified `None` resets the stabilizer to
`{ name: null, count: 0 }`, not to `{L, 1}` as the claim's transition rule
("otherwise resets the state to {L, 1}") asserts for `L = None`: the streak
count after the `None` frame is 0, not 1. -/
theorem C5_counterexample :
    stabStep ⟨some GestureName.Closed_Fist, 3⟩ GestureName.None = ⟨none, 0⟩ ∧
    (stabStep ⟨some GestureName.Closed_Fist, 3⟩ GestureName.None).count ≠ 1 := by
  decide

/-- C5, amended: for non-`None` labels the stabilizer increments on a repeated
label and resets to `{L, 1}` on a change, while a `None` frame resets to
`{null, 0}`; feeding a non-`None` label `k ≥ 1` times from any state not
already holding it yields streak `{L, k}` (hence not stable below
`threshold(L)`, stable from the `threshold(L)`-th frame on, a single
false-to-true transition); any interrupting frame leaves count ≤ 1; and the
thresholds are 2 for `Pinch`/`Open_Palm`/`Closed_Fist`, 4 for `Victory`, and
5 for `Thumb_Up`/`Thumb_Down`/`ILoveYou`. -/
theorem C5_stabilizer :
    (∀ (s : Streak) (g : GestureName), g ≠ GestureName.None →
        stabStep s g = if s.name = some g then ⟨s.name, s.count + 1⟩ else ⟨some g, 1⟩) ∧
    (∀ s : Streak, stabStep s GestureName.None = ⟨none, 0⟩) ∧
    (∀ (g : GestureName) (s : Streak), g ≠ GestureName.None → s.name ≠ some g →
        ∀ k : ℕ, 1 ≤ k → feed s g k = ⟨some g, k⟩) ∧
    (∀ (s : Streak) (g : GestureName), s.name ≠ some g → (stabStep s g).count ≤ 1) ∧
    (thresholdOf GestureName.Pinch = 2 ∧ thresholdOf GestureName.Open_Palm = 2 ∧
      thresholdOf GestureName.Closed_Fist = 2 ∧ thresholdOf GestureName.Victory = 4 ∧
      thresholdOf GestureName.Thumb_Up = 5 ∧ thresholdOf GestureName.Thumb_Down = 5 ∧
      thresholdOf GestureName.ILoveYou = 5) := by
  refine ⟨?_, ?_, ?_, ?_, by decide⟩
  · intro s g hg
    simp [stabStep, hg]
  · intro s
    simp [stabStep]
  · intro g s hg hs k
    induction k with
    | zero => intro h; exact absurd h (by decide)
    | succ n ih =>
      intro _
      rcases Nat.eq_zero_or_pos n with h0 | hpos
      · subst h0
        simp [feed, stabStep, hg, hs]
      · have hn := ih (by omega)
        simp [feed, hn, stabStep, hg]
  · intro s g hs
    unfold stabStep
    split_ifs <;> simp_all

/-- C5, witness: two fist frames from the empty streak reach `{Closed_Fist, 2}`
(the threshold), and an interrupting `None` frame leaves a count ≤ 1. -/
theorem C5_stabilizer_witness :
    feed ⟨none, 0⟩ GestureName.Closed_Fist 2 = ⟨some GestureName.Closed_Fist, 2⟩ ∧
    (stabStep ⟨some GestureName.Closed_Fist, 5⟩ GestureName.None).count ≤ 1 :=
  ⟨C5_stabilizer.2.2.1 GestureName.Closed_Fist ⟨none, 0⟩ (by decide) (by decide) 2 (by decide),
    C5_stabilizer.2.2.2.1 ⟨some GestureName.Closed_Fist, 5⟩ GestureName.None (by decide)⟩

end Gesture
